import Mathlib

/- Verification of the core of the `valualo2` property-valuation app
(`streamlit_app.py`): the e-mail/phone validators, the artifact loader,
the preprocessing pipeline, the pricing post-processing and the wizard
step-1 guard, shallowly embedded in Lean. -/

namespace Valualo

/- ### Validators (`validar_correo`, `validar_telefono`)

Both are `re.match(pattern, s) is not None` for anchored patterns over the
classes `\w`, `[\w\.-]`, `[1-9]`, `\d` (modelled over ASCII, which is all the
claims exercise).  In Python, `$` matches at the end of the string or just
before one final newline; since no class of either pattern accepts a newline,
matching `R$` against `s` is exact matching of `R` against `s` with one
trailing newline removed. -/

/-- Character class `\d` (ASCII decimal digit). -/
def esDigito (c : Char) : Bool :=
  decide ('0' ≤ c) && decide (c ≤ '9')

/-- Character class `\w` (ASCII word character). -/
def esW (c : Char) : Bool :=
  (decide ('a' ≤ c) && decide (c ≤ 'z')) || (decide ('A' ≤ c) && decide (c ≤ 'Z')) ||
    esDigito c || decide (c = '_')

/-- Character class `[\w\.-]` of the e-mail pattern. -/
def esA (c : Char) : Bool :=
  esW c || decide (c = '.') || decide (c = '-')

/-- Drop one final newline, modelling the tolerance of `$` in `re.match`. -/
def stripNl (l : List Char) : List Char :=
  if l.getLast? = some '\n' then l.dropLast else l

/-- Consume the optional leading `+` of `^\+?[1-9]\d{1,14}$`. -/
def quitarMas (l : List Char) : List Char :=
  if l.head? = some '+' then l.tail else l

/-- Body `[1-9]\d{1,14}` matched exactly against the whole list. -/
def telCore : List Char → Bool
  | [] => false
  | c :: resto =>
      (decide ('1' ≤ c) && decide (c ≤ '9')) && resto.all esDigito &&
        (decide (1 ≤ resto.length) && decide (resto.length ≤ 14))

/-- The `validar_telefono` function: `re.match(r'^\+?[1-9]\d{1,14}$', s)`. -/
def validar_telefono (s : String) : Bool :=
  telCore (quitarMas (stripNl s.data))

/-- Body `[\w\.-]+@[\w\.-]+\.\w+` matched exactly against the whole list.
Neither `[\w\.-]` nor `\w` accepts `@`, so the literal `@` can only match the
first `@` of the input, and `\w` accepts no dot, so the final `\.` can only
match the last dot after that `@`. -/
def correoCore (l : List Char) : Bool :=
  let usuario := l.takeWhile (fun c => c != '@')
  match l.dropWhile (fun c => c != '@') with
  | '@' :: dominio =>
      let rev := dominio.reverse
      let tld := rev.takeWhile (fun c => c != '.')
      match rev.dropWhile (fun c => c != '.') with
      | '.' :: domRev =>
          (!usuario.isEmpty) && usuario.all esA &&
            (!domRev.isEmpty) && domRev.all esA &&
            (!tld.isEmpty) && tld.all esW
      | _ => false
  | _ => false

/-- The `validar_correo` function: `re.match(r'^[\w\.-]+@[\w\.-]+\.\w+$', s)`. -/
def validar_correo (s : String) : Bool :=
  correoCore (stripNl s.data)

/- ### Helper lemmas on the validators -/

theorem stripNl_eq_self {l : List Char} (h : l.getLast? ≠ some '\n') :
    stripNl l = l := by
  unfold stripNl
  exact if_neg h

theorem stripNl_cons_cons (a b : Char) (l : List Char) :
    stripNl (a :: b :: l) = a :: stripNl (b :: l) := by
  unfold stripNl
  rw [List.getLast?_cons_cons]
  by_cases h : (b :: l).getLast? = some '\n'
  · rw [if_pos h, if_pos h]
    rfl
  · rw [if_neg h, if_neg h]

theorem stripNl_single {a : Char} (h : a ≠ '\n') : stripNl [a] = [a] := by
  unfold stripNl
  rw [if_neg]
  simp [h]

theorem exists_stripNl_cons {c : Char} (hc : c ≠ '\n') (l : List Char) :
    ∃ l', stripNl (c :: l) = c :: l' := by
  cases l with
  | nil => exact ⟨[], stripNl_single hc⟩
  | cons b t => exact ⟨stripNl (b :: t), stripNl_cons_cons c b t⟩

theorem stripNl_all_ne {l : List Char} (h : ∀ x ∈ l, x ≠ '\n') :
    stripNl l = l := by
  apply stripNl_eq_self
  intro hc
  exact h _ (List.mem_of_getLast?_eq_some hc) rfl

theorem quitarMas_cons_of_ne {c : Char} (h : c ≠ '+') (l : List Char) :
    quitarMas (c :: l) = c :: l := by
  unfold quitarMas
  rw [if_neg]
  simp [h]

theorem quitarMas_plus (l : List Char) : quitarMas ('+' :: l) = l := by
  simp [quitarMas]

theorem telCore_zero (l : List Char) : telCore ('0' :: l) = false := rfl

theorem digito_ne_nl {c : Char} (h : esDigito c = true) : c ≠ '\n' := by
  intro hc
  subst hc
  exact absurd h (by decide)

/- ### C8: acceptance and rejection shape of `validar_telefono` -/

/-- C8: `validar_telefono` accepts every string made of an optional leading
`+`, a first digit in 1–9 and then 1 to 14 further digits (2–15 digits in
total), and rejects every string whose first digit after the optional `+`
is a zero. -/
theorem c8_telefono (mas : Bool) (c : Char) (ds r : List Char)
    (h1 : '1' ≤ c) (h9 : c ≤ '9') (hds : ∀ d ∈ ds, esDigito d = true)
    (hlen1 : 1 ≤ ds.length) (hlen14 : ds.length ≤ 14) :
    validar_telefono ⟨(if mas then ['+'] else []) ++ c :: ds⟩ = true ∧
    validar_telefono ⟨'0' :: r⟩ = false ∧
    validar_telefono ⟨'+' :: '0' :: r⟩ = false := by
  have hc_ne_nl : c ≠ '\n' := by
    intro hc
    subst hc
    exact absurd h1 (by decide)
  have hc_ne_plus : c ≠ '+' := by
    intro hc
    subst hc
    exact absurd h1 (by decide)
  refine ⟨?_, ?_, ?_⟩
  · show telCore (quitarMas (stripNl ((if mas then ['+'] else []) ++ c :: ds))) = true
    have hnl : ∀ x ∈ (if mas then ['+'] else []) ++ c :: ds, x ≠ '\n' := by
      intro x hx
      rcases List.mem_append.mp hx with hx | hx
      · cases mas with
        | true =>
            simp only [if_true, List.mem_singleton] at hx
            subst hx
            decide
        | false => simp at hx
      · rcases List.mem_cons.mp hx with hx | hx
        · subst hx
          exact hc_ne_nl
        · exact digito_ne_nl (hds x hx)
    rw [stripNl_all_ne hnl]
    have hcore : telCore (c :: ds) = true := by
      show ((decide ('1' ≤ c) && decide (c ≤ '9')) && ds.all esDigito &&
        (decide (1 ≤ ds.length) && decide (ds.length ≤ 14))) = true
      simp only [Bool.and_eq_true, decide_eq_true_eq, List.all_eq_true]
      exact ⟨⟨⟨h1, h9⟩, hds⟩, hlen1, hlen14⟩
    cases mas with
    | true =>
        rw [if_pos rfl, List.singleton_append, quitarMas_plus]
        exact hcore
    | false =>
        rw [if_neg (by simp), List.nil_append, quitarMas_cons_of_ne hc_ne_plus]
        exact hcore
  · show telCore (quitarMas (stripNl ('0' :: r))) = false
    obtain ⟨r', hr⟩ := exists_stripNl_cons (by decide : ('0' : Char) ≠ '\n') r
    rw [hr, quitarMas_cons_of_ne (by decide) r']
    exact telCore_zero r'
  · show telCore (quitarMas (stripNl ('+' :: '0' :: r))) = false
    rw [stripNl_cons_cons]
    obtain ⟨r', hr⟩ := exists_stripNl_cons (by decide : ('0' : Char) ≠ '\n') r
    rw [hr, quitarMas_plus]
    exact telCore_zero r'

/-- Witness for C8 at a concrete phone number. -/
theorem c8_witness :
    validar_telefono ⟨(if false then ['+'] else []) ++ '1' :: ['2']⟩ = true ∧
    validar_telefono ⟨'0' :: ['7']⟩ = false ∧
    validar_telefono ⟨'+' :: '0' :: ['7']⟩ = false :=
  c8_telefono false '1' ['2'] ['7'] (by decide) (by decide) (by decide)
    (by decide) (by decide)

/- ### C10: trailing-newline tolerance of both validators -/

/-- C10 counterexample: the string `"12\n"` is accepted by
`validar_telefono`, but appending one more trailing newline to this accepted
string is rejected, so acceptance is not preserved by appending a newline to
every accepted string. -/
theorem c10_counterexample :
    validar_telefono "12\n" = true ∧ validar_telefono ("12\n" ++ "\n") = false := by
  decide

/-- C10 amended: for every accepted string that does not already end in a
newline, appending a single trailing newline keeps the string accepted, both
for `validar_telefono` and for `validar_correo` (Python `$` matches just
before one final newline). -/
theorem c10_amended (s : String) (h : s.data.getLast? ≠ some '\n') :
    (validar_telefono s = true → validar_telefono (s ++ "\n") = true) ∧
    (validar_correo s = true → validar_correo (s ++ "\n") = true) := by
  have hdata : (s ++ "\n").data = s.data ++ ['\n'] := rfl
  have hstrip : stripNl (s.data ++ ['\n']) = s.data := by
    unfold stripNl
    rw [List.getLast?_concat, if_pos rfl, List.dropLast_concat]
  have hself : stripNl s.data = s.data := stripNl_eq_self h
  constructor
  · intro ht
    show telCore (quitarMas (stripNl (s ++ "\n").data)) = true
    rw [hdata, hstrip]
    unfold validar_telefono at ht
    rw [hself] at ht
    exact ht
  · intro hc
    show correoCore (stripNl (s ++ "\n").data) = true
    rw [hdata, hstrip]
    unfold validar_correo at hc
    rw [hself] at hc
    exact hc

/-- Witness for C10 at concrete accepted inputs without a trailing newline. -/
theorem c10_witness :
    validar_telefono ("12" ++ "\n") = true ∧ validar_correo ("a@b.c" ++ "\n") = true :=
  ⟨(c10_amended "12" (by decide)).1 (by decide),
    (c10_amended "a@b.c" (by decide)).2 (by decide)⟩

/- ### Artifact loader (`cargar_modelos`) and feature pipeline -/

/-- Presence on disk of the four artifact files of one property type
(`bosque_aleatorio`, `escalador`, `imputador`, `agrupamiento`, with the
resolved filename prefix). -/
structure Presencia where
  modelo : Bool
  escalador : Bool
  imputador : Bool
  agrupamiento : Bool

/-- Behaviour of the four pretrained artifacts, abstracted: the regressor
maps a processed row to a raw price, imputer and scaler transform rows, and
the cluster-assigner maps coordinates to a group label or fails (raises). -/
structure ArtFns where
  modelo : List ℝ → ℝ
  escalador : List ℝ → List ℝ
  imputador : List ℝ → List ℝ
  agrupamiento : ℝ → ℝ → Option ℤ

/-- The dictionary returned by `cargar_modelos`: a key is present exactly
when its file was reached and loaded before the first missing file. -/
structure Modelos where
  modelo : Option (List ℝ → ℝ)
  escalador : Option (List ℝ → List ℝ)
  imputador : Option (List ℝ → List ℝ)
  agrupamiento : Option (ℝ → ℝ → Option ℤ)

/-- The `cargar_modelos` function: iterates the four required files in dict
order and loads each one that exists; the first missing file raises
`FileNotFoundError`, which the surrounding `try` catches after showing
`st.error`, so the partly filled dictionary is returned to the caller. -/
def cargar_modelos (p : Presencia) (f : ArtFns) : Modelos :=
  if !p.modelo then ⟨none, none, none, none⟩
  else if !p.escalador then ⟨some f.modelo, none, none, none⟩
  else if !p.imputador then ⟨some f.modelo, some f.escalador, none, none⟩
  else if !p.agrupamiento then ⟨some f.modelo, some f.escalador, some f.imputador, none⟩
  else ⟨some f.modelo, some f.escalador, some f.imputador, some f.agrupamiento⟩

/-- Filename resolution of `cargar_modelos`:
`prefijo = "renta_" if tipo_propiedad == "Departamento" else ""`. -/
def prefijo_modelos (tipo_propiedad : String) : String :=
  if tipo_propiedad = "Departamento" then "renta_" else ""

/-- Step-1 property-type handling: a free text input that defaults to
`"Casa"` when left empty (`if not tipo_propiedad: tipo_propiedad = "Casa"`). -/
def tipo_efectivo (entrada : String) : String :=
  if entrada = "" then "Casa" else entrada

/-- The `agregar_caracteristica_grupo` function: predicts the location
cluster, returning `None` when anything inside the `try` fails — a missing
`agrupamiento` artifact (`KeyError`), absent coordinates (`predict` raises on
a null row), or a failing `predict`. -/
def agregar_caracteristica_grupo (latitud longitud : Option ℝ)
    (modelos : Modelos) : Option ℤ :=
  match modelos.agrupamiento, latitud, longitud with
  | some f, some la, some lo => f la lo
  | _, _, _ => none

/-- The `preprocesar_datos` function: builds the raw row `[Terreno,
Construccion, Habitaciones, Banos, GrupoUbicacion]`, substituting `0.0` for
every `None` value (in particular the failed-cluster sentinel), then imputes
and scales; a failure inside the `try` (such as a missing imputer or scaler
artifact) yields `None`. -/
def preprocesar_datos (latitud longitud : Option ℝ)
    (terreno construccion habitaciones banos : Option ℝ)
    (modelos : Modelos) : Option (List ℝ) :=
  let grupo_ubicacion := agregar_caracteristica_grupo latitud longitud modelos
  let fila : List ℝ := [terreno.getD 0, construccion.getD 0, habitaciones.getD 0,
    banos.getD 0, (grupo_ubicacion.map (fun g => (g : ℝ))).getD 0]
  match modelos.imputador, modelos.escalador with
  | some imputador, some escalador => some (escalador (imputador fila))
  | _, _ => none

/-- All four artifact files present on disk. -/
def presenciaCompleta : Presencia := ⟨true, true, true, true⟩

/-- Only the cluster-assigner file `agrupamiento.joblib` is missing. -/
def sinAgrupamiento : Presencia := ⟨true, true, true, false⟩

/-- Example artifact behaviours: a regressor constantly returning `c`,
identity imputer and scaler, and a cluster-assigner always giving group 0. -/
def fnsConst (c : ℝ) : ArtFns :=
  ⟨fun _ => c, id, id, fun _ _ => some 0⟩

/- ### C9: artifact-set selection by property type -/

/-- C9: every property-type string other than exactly `"Departamento"`
resolves the sale artifact set (empty prefix); only `"Departamento"` selects
the `"renta_"` artifacts; and an empty type input defaults to `"Casa"`,
which also selects the sale artifacts. -/
theorem c9_prefijo (t : String) :
    (t ≠ "Departamento" → prefijo_modelos t = "") ∧
    prefijo_modelos "Departamento" = "renta_" ∧
    prefijo_modelos (tipo_efectivo "") = "" := by
  refine ⟨fun h => if_neg h, rfl, rfl⟩

/-- Witness for C9 at the free-text input `"Casa"`. -/
theorem c9_witness :
    prefijo_modelos "Casa" = "" ∧ prefijo_modelos "Departamento" = "renta_" :=
  ⟨(c9_prefijo "Casa").1 (by decide), (c9_prefijo "Casa").2.1⟩

/- ### C6: sentinel on unresolved address or failed cluster assignment -/

/-- C6: whenever the coordinates are absent or the cluster assignment fails,
preprocessing with a fully loaded bundle substitutes the sentinel `0.0` for
the location cluster and still returns a feature vector (no failure
propagates out of the pipeline). -/
theorem c6_sentinel (f : ArtFns) (lat lon t c h b : Option ℝ)
    (hfalla : lat = none ∨ lon = none ∨
      agregar_caracteristica_grupo lat lon (cargar_modelos presenciaCompleta f) = none) :
    preprocesar_datos lat lon t c h b (cargar_modelos presenciaCompleta f) =
      some (f.escalador (f.imputador
        [t.getD 0, c.getD 0, h.getD 0, b.getD 0, 0])) := by
  have hnone : agregar_caracteristica_grupo lat lon (cargar_modelos presenciaCompleta f) = none := by
    rcases hfalla with h' | h' | h'
    · subst h'
      rfl
    · subst h'
      cases lat <;> rfl
    · exact h'
  unfold preprocesar_datos
  rw [hnone]
  rfl

/-- Witness for C6 at an unresolved address with a concrete bundle. -/
theorem c6_witness :
    preprocesar_datos none none none none none none
        (cargar_modelos presenciaCompleta (fnsConst 0)) =
      some ((fnsConst 0).escalador ((fnsConst 0).imputador [0, 0, 0, 0, 0])) :=
  c6_sentinel (fnsConst 0) none none none none none none (Or.inl rfl)

/- ### Pricing model (`predecir_precio`) -/

/-- Range derivation of `predecir_precio`: the asymmetric confidence band
around the rounded price, with scale factors `exp(-0.05)` and
`exp(0.01 * ln(precio/1000 + 1))`. -/
noncomputable def rango_precio (precio_redondeado : ℤ) : ℤ × ℤ :=
  let factor_escala_bajo := Real.exp (-0.05)
  let factor_escala_alto :=
    Real.exp (0.01 * Real.log ((precio_redondeado : ℝ) / 1000 + 1))
  (max 0 (⌊(precio_redondeado : ℝ) * factor_escala_bajo / 1000⌋ * 1000),
    ⌈(precio_redondeado : ℝ) * factor_escala_alto / 1000⌉ * 1000)

/-- Deterministic post-processing of `predecir_precio` on its non-failing
path: dampen the raw prediction by 0.63, round down to the nearest 1000 (the
same granularity for every property type), then derive the range.  In the
source this runs inside the `try`; the `math.log` domain failure is modelled
in `predecir_precio` below. -/
noncomputable def predecir_nucleo (precio_bruto : ℝ) : ℤ × ℤ × ℤ :=
  let precio_redondeado : ℤ := ⌊precio_bruto * 0.63 / 1000⌋ * 1000
  (precio_redondeado, (rango_precio precio_redondeado).1,
    (rango_precio precio_redondeado).2)

/-- The `predecir_precio` function: applies the regressor and then the
deterministic post-processing.  The `except` path returns `(None, None,
None)` both when the regressor artifact is missing (`KeyError` inside the
`try`) and when `math.log(precio_redondeado/1000 + 1)` raises its domain
`ValueError`, which happens exactly when `precio_redondeado ≤ -1000`
(argument at most 0, i.e. any negative dampened prediction). -/
noncomputable def predecir_precio (datos_procesados : List ℝ)
    (modelos : Modelos) : Option (ℤ × ℤ × ℤ) :=
  match modelos.modelo with
  | none => none
  | some f =>
      if (⌊f datos_procesados * 0.63 / 1000⌋ * 1000 : ℤ) ≤ -1000 then none
      else some (predecir_nucleo (f datos_procesados))

/-- Evaluation of the rounding floor at the dampened raw prediction
1 000 000: `floor(630000 / 1000) = 630`. -/
theorem floor_millon : ⌊(1000000 : ℝ) * 0.63 / 1000⌋ = 630 :=
  Int.floor_eq_iff.mpr ⟨by norm_num, by norm_num⟩

/- ### Step-3 results branch -/

/-- Outcome of the step-3 results branch. -/
inductive ResultadoPaso3 where
  | resultados (precio precio_min precio_max : ℤ)
  | errorPrecio
  | errorDatos
deriving DecidableEq

/-- The step-3 results branch: load the bundle for the chosen type, then
preprocess and predict; `None` from preprocessing shows the data error,
`None` from prediction shows the price error, and otherwise the price and
range are displayed (the best-effort sheet append never changes this). -/
noncomputable def paso3_resultados (p : Presencia) (f : ArtFns)
    (latitud longitud terreno construccion habitaciones banos : Option ℝ) :
    ResultadoPaso3 :=
  let modelos := cargar_modelos p f
  match preprocesar_datos latitud longitud terreno construccion habitaciones banos modelos with
  | none => .errorDatos
  | some datos =>
      match predecir_precio datos modelos with
      | none => .errorPrecio
      | some (precio, precio_min, precio_max) => .resultados precio precio_min precio_max

/-- True exactly when step 3 displayed price results. -/
def muestraResultados : ResultadoPaso3 → Bool
  | .resultados _ _ _ => true
  | _ => false

/- ### C3: a missing artifact is not fatal to the pipeline -/

/-- C3 counterexample: with every artifact present except the
cluster-assigner file, loading reports the error but returns the partial
bundle, the caller proceeds to preprocessing and prediction anyway, and
step 3 completes and displays results — the missing artifact neither stops
inference nor blocks step-3 completion. -/
theorem c3_counterexample :
    muestraResultados (paso3_resultados sinAgrupamiento (fnsConst 1000000)
      (some 19) (some (-99)) (some 200) (some 150) (some 3) (some (5 / 2))) = true := by
  have hstep : paso3_resultados sinAgrupamiento (fnsConst 1000000)
      (some 19) (some (-99)) (some 200) (some 150) (some 3) (some (5 / 2)) =
      (match (if (⌊(1000000 : ℝ) * 0.63 / 1000⌋ * 1000 : ℤ) ≤ -1000 then none
          else some (predecir_nucleo 1000000) : Option (ℤ × ℤ × ℤ)) with
        | none => ResultadoPaso3.errorPrecio
        | some (precio, precio_min, precio_max) =>
            ResultadoPaso3.resultados precio precio_min precio_max) := rfl
  rw [hstep, floor_millon, if_neg (by norm_num : ¬((630 * 1000 : ℤ) ≤ -1000))]
  rfl

/-- C3 amended: a missing regressor, scaler or imputer file makes the
partial bundle fail later, inside preprocessing, so step 3 shows the data
error; when only the cluster-assigner file is missing, the sentinel is
substituted and step 3 completes with price results whenever the regressor
output is non-negative, while a negative regressor output instead hits the
`math.log` domain error and step 3 shows the price error — in every case
the caller proceeds past loading with the incomplete bundle. -/
theorem c3_amended (f : ArtFns) (lat lon t c h b : Option ℝ) (eb ei ea : Bool) :
    paso3_resultados ⟨false, eb, ei, ea⟩ f lat lon t c h b = ResultadoPaso3.errorDatos ∧
    paso3_resultados ⟨true, false, ei, ea⟩ f lat lon t c h b = ResultadoPaso3.errorDatos ∧
    paso3_resultados ⟨true, true, false, ea⟩ f lat lon t c h b = ResultadoPaso3.errorDatos ∧
    (0 ≤ f.modelo (f.escalador (f.imputador [t.getD 0, c.getD 0, h.getD 0, b.getD 0, 0])) →
      muestraResultados (paso3_resultados ⟨true, true, true, false⟩ f lat lon t c h b) = true) ∧
    (f.modelo (f.escalador (f.imputador [t.getD 0, c.getD 0, h.getD 0, b.getD 0, 0])) < 0 →
      paso3_resultados ⟨true, true, true, false⟩ f lat lon t c h b =
        ResultadoPaso3.errorPrecio) := by
  refine ⟨rfl, rfl, rfl, ?_, ?_⟩
  · intro hnn
    set raw := f.modelo (f.escalador (f.imputador
      [t.getD 0, c.getD 0, h.getD 0, b.getD 0, 0])) with hraw
    have h0 : (0 : ℤ) ≤ ⌊raw * 0.63 / 1000⌋ := by
      rw [Int.le_floor]
      push_cast
      nlinarith
    have hpr : ¬ ((⌊raw * 0.63 / 1000⌋ * 1000 : ℤ) ≤ -1000) := by omega
    have hstep : paso3_resultados ⟨true, true, true, false⟩ f lat lon t c h b =
        (match (if (⌊raw * 0.63 / 1000⌋ * 1000 : ℤ) ≤ -1000 then none
            else some (predecir_nucleo raw) : Option (ℤ × ℤ × ℤ)) with
          | none => ResultadoPaso3.errorPrecio
          | some (precio, precio_min, precio_max) =>
              ResultadoPaso3.resultados precio precio_min precio_max) := rfl
    rw [hstep, if_neg hpr]
    rfl
  · intro hneg
    set raw := f.modelo (f.escalador (f.imputador
      [t.getD 0, c.getD 0, h.getD 0, b.getD 0, 0])) with hraw
    have h0 : ⌊raw * 0.63 / 1000⌋ < 0 := by
      rw [Int.floor_lt]
      push_cast
      nlinarith
    have hpr : (⌊raw * 0.63 / 1000⌋ * 1000 : ℤ) ≤ -1000 := by omega
    have hstep : paso3_resultados ⟨true, true, true, false⟩ f lat lon t c h b =
        (match (if (⌊raw * 0.63 / 1000⌋ * 1000 : ℤ) ≤ -1000 then none
            else some (predecir_nucleo raw) : Option (ℤ × ℤ × ℤ)) with
          | none => ResultadoPaso3.errorPrecio
          | some (precio, precio_min, precio_max) =>
              ResultadoPaso3.resultados precio precio_min precio_max) := rfl
    rw [hstep, if_pos hpr]

/-- Witness for C3 at concrete bundles: an error outcome for each of the
three fatal missing artifacts, the results outcome for a missing
cluster-assigner with a non-negative regressor output, and the price-error
outcome for a regressor returning a negative value. -/
theorem c3_witness :
    paso3_resultados ⟨false, true, true, true⟩ (fnsConst 1000000) (some 19) (some (-99))
        (some 200) (some 150) (some 3) (some (5 / 2)) = ResultadoPaso3.errorDatos ∧
    paso3_resultados ⟨true, false, true, true⟩ (fnsConst 1000000) (some 19) (some (-99))
        (some 200) (some 150) (some 3) (some (5 / 2)) = ResultadoPaso3.errorDatos ∧
    paso3_resultados ⟨true, true, false, true⟩ (fnsConst 1000000) (some 19) (some (-99))
        (some 200) (some 150) (some 3) (some (5 / 2)) = ResultadoPaso3.errorDatos ∧
    muestraResultados (paso3_resultados ⟨true, true, true, false⟩ (fnsConst 1000000) (some 19)
        (some (-99)) (some 200) (some 150) (some 3) (some (5 / 2))) = true ∧
    paso3_resultados ⟨true, true, true, false⟩ (fnsConst (-1)) (some 19) (some (-99))
        (some 200) (some 150) (some 3) (some (5 / 2)) = ResultadoPaso3.errorPrecio :=
  ⟨(c3_amended (fnsConst 1000000) (some 19) (some (-99)) (some 200) (some 150) (some 3)
      (some (5 / 2)) true true true).1,
    (c3_amended (fnsConst 1000000) (some 19) (some (-99)) (some 200) (some 150) (some 3)
      (some (5 / 2)) true true true).2.1,
    (c3_amended (fnsConst 1000000) (some 19) (some (-99)) (some 200) (some 150) (some 3)
      (some (5 / 2)) true true true).2.2.1,
    (c3_amended (fnsConst 1000000) (some 19) (some (-99)) (some 200) (some 150) (some 3)
      (some (5 / 2)) true true true).2.2.2.1 (by norm_num : (0 : ℝ) ≤ 1000000),
    (c3_amended (fnsConst (-1)) (some 19) (some (-99)) (some 200) (some 150) (some 3)
      (some (5 / 2)) true true true).2.2.2.2 (by norm_num : (-1 : ℝ) < 0)⟩

/- ### C4: band invariant around the point estimate -/

/-- C4: for every non-negative rounded price, the derived band contains the
point estimate: `rangeMin ≤ pointEstimate ≤ rangeMax`. -/
theorem c4_rango (p : ℤ) (hp : 0 ≤ p) :
    (rango_precio p).1 ≤ p ∧ p ≤ (rango_precio p).2 := by
  have hp' : (0 : ℝ) ≤ (p : ℝ) := by exact_mod_cast hp
  constructor
  · have hfb : Real.exp (-0.05) ≤ 1 := by
      rw [Real.exp_le_one_iff]
      norm_num
    have hfb0 : (0 : ℝ) ≤ Real.exp (-0.05) := le_of_lt (Real.exp_pos _)
    have hfl : ((⌊(p : ℝ) * Real.exp (-0.05) / 1000⌋ * 1000 : ℤ) : ℝ) ≤ (p : ℝ) := by
      push_cast
      have h1 := Int.floor_le ((p : ℝ) * Real.exp (-0.05) / 1000)
      have h2 : (p : ℝ) * Real.exp (-0.05) ≤ (p : ℝ) * 1 :=
        mul_le_mul_of_nonneg_left hfb hp'
      nlinarith
    have hfl' : ⌊(p : ℝ) * Real.exp (-0.05) / 1000⌋ * 1000 ≤ p := by exact_mod_cast hfl
    show max 0 (⌊(p : ℝ) * Real.exp (-0.05) / 1000⌋ * 1000) ≤ p
    exact max_le hp hfl'
  · have hfa : 1 ≤ Real.exp (0.01 * Real.log ((p : ℝ) / 1000 + 1)) := by
      rw [Real.one_le_exp_iff]
      have hlog : 0 ≤ Real.log ((p : ℝ) / 1000 + 1) := by
        apply Real.log_nonneg
        nlinarith
      nlinarith
    have hce : (p : ℝ) ≤
        ((⌈(p : ℝ) * Real.exp (0.01 * Real.log ((p : ℝ) / 1000 + 1)) / 1000⌉ * 1000 : ℤ) : ℝ) := by
      push_cast
      have h1 := Int.le_ceil ((p : ℝ) * Real.exp (0.01 * Real.log ((p : ℝ) / 1000 + 1)) / 1000)
      have h2 : (p : ℝ) * 1 ≤ (p : ℝ) * Real.exp (0.01 * Real.log ((p : ℝ) / 1000 + 1)) :=
        mul_le_mul_of_nonneg_left hfa hp'
      nlinarith
    show p ≤ ⌈(p : ℝ) * Real.exp (0.01 * Real.log ((p : ℝ) / 1000 + 1)) / 1000⌉ * 1000
    exact_mod_cast hce

/-- Witness for C4 at the rounded price 0. -/
theorem c4_witness :
    (0 : ℤ) ≤ 0 ∧ ((rango_precio 0).1 ≤ 0 ∧ (0 : ℤ) ≤ (rango_precio 0).2) :=
  ⟨le_refl 0, c4_rango 0 (le_refl 0)⟩

/- ### C5: divisibility of the point estimate -/

/-- C5: every successful estimation returns a point estimate divisible by
1000 and hence also by 100; in particular it is a multiple of 1000 for a
house and a multiple of 100 for an apartment (`predecir_precio` uses the
same granularity for both). -/
theorem c5_multiplo (datos : List ℝ) (m : Modelos) (t : ℤ × ℤ × ℤ)
    (h : predecir_precio datos m = some t) :
    1000 ∣ t.1 ∧ 100 ∣ t.1 := by
  rcases m with ⟨mo, es, im, ag⟩
  cases mo with
  | none => simp [predecir_precio] at h
  | some f =>
      have h' : (if (⌊f datos * 0.63 / 1000⌋ * 1000 : ℤ) ≤ -1000 then none
          else some (predecir_nucleo (f datos)) : Option (ℤ × ℤ × ℤ)) = some t := h
      by_cases hc : (⌊f datos * 0.63 / 1000⌋ * 1000 : ℤ) ≤ -1000
      · rw [if_pos hc] at h'
        exact absurd h' (by simp)
      · rw [if_neg hc] at h'
        have ht : t = predecir_nucleo (f datos) := (Option.some_inj.mp h').symm
        subst ht
        constructor
        · refine ⟨⌊f datos * 0.63 / 1000⌋, ?_⟩
          show ⌊f datos * 0.63 / 1000⌋ * 1000 = 1000 * ⌊f datos * 0.63 / 1000⌋
          ring
        · refine ⟨⌊f datos * 0.63 / 1000⌋ * 10, ?_⟩
          show ⌊f datos * 0.63 / 1000⌋ * 1000 = 100 * (⌊f datos * 0.63 / 1000⌋ * 10)
          ring

/-- Witness for C5 with a concrete bundle whose regressor returns 1 000 000,
a successful estimation. -/
theorem c5_witness :
    1000 ∣ (predecir_nucleo 1000000).1 ∧ 100 ∣ (predecir_nucleo 1000000).1 :=
  c5_multiplo [200, 150, 3, 2.5, 0] (cargar_modelos presenciaCompleta (fnsConst 1000000))
    (predecir_nucleo 1000000) (by
      have h : predecir_precio [200, 150, 3, 2.5, 0]
          (cargar_modelos presenciaCompleta (fnsConst 1000000)) =
          (if (⌊(1000000 : ℝ) * 0.63 / 1000⌋ * 1000 : ℤ) ≤ -1000 then none
            else some (predecir_nucleo 1000000) : Option (ℤ × ℤ × ℤ)) := rfl
      rw [h, floor_millon, if_neg (by norm_num : ¬((630 * 1000 : ℤ) ≤ -1000))])

/- ### C1: rounding granularity is 1000 for both property types -/

/-- Modelled from the spec sentence of C1 only: rounding the dampened
prediction down to the nearest 100, the granularity the spec prescribes for
apartments. -/
noncomputable def redondeoSpecCien (x : ℝ) : ℤ := ⌊x / 100⌋ * 100

/-- C1 counterexample: at raw prediction 10000 the code returns the point
estimate 6000 (dampened 6300, rounded down to the nearest 1000), not the
6300 the claim prescribes for an apartment (rounding down to the nearest
100); so the apartment granularity is not 100. -/
theorem c1_counterexample :
    (predecir_nucleo 10000).1 ≠ redondeoSpecCien (10000 * 0.63) := by
  have h1 : (predecir_nucleo 10000).1 = 6000 := by
    show ⌊(10000 : ℝ) * 0.63 / 1000⌋ * 1000 = 6000
    have hf : ⌊(10000 : ℝ) * 0.63 / 1000⌋ = 6 :=
      Int.floor_eq_iff.mpr ⟨by norm_num, by norm_num⟩
    rw [hf]
    norm_num
  have h2 : redondeoSpecCien (10000 * 0.63) = 6300 := by
    show ⌊(10000 : ℝ) * 0.63 / 100⌋ * 100 = 6300
    have hf : ⌊(10000 : ℝ) * 0.63 / 100⌋ = 63 :=
      Int.floor_eq_iff.mpr ⟨by norm_num, by norm_num⟩
    rw [hf]
    norm_num
  rw [h1, h2]
  norm_num

/-- C1 amended: for every raw prediction — and hence for both property
types, since `predecir_precio` never inspects the property type — the point
estimate is the 0.63-dampened prediction rounded down to the nearest 1000:
it is divisible by 1000 and brackets the dampened value from below within
less than 1000. -/
theorem c1_amended (precio_bruto : ℝ) :
    1000 ∣ (predecir_nucleo precio_bruto).1 ∧
    ((predecir_nucleo precio_bruto).1 : ℝ) ≤ precio_bruto * 0.63 ∧
    precio_bruto * 0.63 < (predecir_nucleo precio_bruto).1 + 1000 := by
  refine ⟨⟨⌊precio_bruto * 0.63 / 1000⌋, ?_⟩, ?_, ?_⟩
  · show ⌊precio_bruto * 0.63 / 1000⌋ * 1000 = 1000 * ⌊precio_bruto * 0.63 / 1000⌋
    ring
  · show ((⌊precio_bruto * 0.63 / 1000⌋ * 1000 : ℤ) : ℝ) ≤ precio_bruto * 0.63
    have h := Int.floor_le (precio_bruto * 0.63 / 1000)
    push_cast
    linarith
  · show precio_bruto * 0.63 < ((⌊precio_bruto * 0.63 / 1000⌋ * 1000 : ℤ) : ℝ) + 1000
    have h := Int.lt_floor_add_one (precio_bruto * 0.63 / 1000)
    push_cast
    linarith

/- ### C2: the concrete scenario at raw prediction 1 000 000

The band factors are transcendental, so the concrete floor and ceiling are
pinned down by rational bounds on `exp(-0.05)` and on
`exp(0.01 * ln 631) = 631 ^ (1/100)`. -/

theorem exp_low_lb : (599 : ℝ) / 630 ≤ Real.exp (-0.05) := by
  have hpos : (0 : ℝ) < Real.exp (1 / 20 : ℝ) := Real.exp_pos _
  have hpow : Real.exp (1 / 20 : ℝ) ^ (20 : ℕ) = Real.exp 1 := by
    rw [← Real.exp_nat_mul]
    norm_num
  have he : Real.exp 1 ≤ ((630 : ℝ) / 599) ^ (20 : ℕ) :=
    le_of_lt (lt_of_lt_of_le Real.exp_one_lt_d9 (by norm_num))
  have h20 : Real.exp (1 / 20 : ℝ) ≤ 630 / 599 := by
    have := (pow_le_pow_iff_left₀ (le_of_lt hpos)
      (by norm_num : (0 : ℝ) ≤ 630 / 599) (by norm_num : (20 : ℕ) ≠ 0)).mp
      (by rw [hpow]; exact he)
    exact this
  have hneg : Real.exp (-0.05) = (Real.exp (1 / 20 : ℝ))⁻¹ := by
    rw [← Real.exp_neg]
    norm_num
  rw [hneg]
  have hinv : Real.exp (1 / 20 : ℝ) * (Real.exp (1 / 20 : ℝ))⁻¹ = 1 :=
    mul_inv_cancel₀ (ne_of_gt hpos)
  have hinvpos : (0 : ℝ) ≤ (Real.exp (1 / 20 : ℝ))⁻¹ := le_of_lt (inv_pos.mpr hpos)
  have hmul := mul_le_mul_of_nonneg_right h20 hinvpos
  rw [hinv] at hmul
  linarith

theorem exp_low_ub : Real.exp (-0.05) < (600 : ℝ) / 630 := by
  have hpos : (0 : ℝ) < Real.exp (1 / 20 : ℝ) := Real.exp_pos _
  have h : (1 / 20 : ℝ) + 1 < Real.exp (1 / 20 : ℝ) :=
    Real.add_one_lt_exp (by norm_num)
  have hneg : Real.exp (-0.05) = (Real.exp (1 / 20 : ℝ))⁻¹ := by
    rw [← Real.exp_neg]
    norm_num
  rw [hneg]
  have hinv : Real.exp (1 / 20 : ℝ) * (Real.exp (1 / 20 : ℝ))⁻¹ = 1 :=
    mul_inv_cancel₀ (ne_of_gt hpos)
  have hinvpos : (0 : ℝ) < (Real.exp (1 / 20 : ℝ))⁻¹ := inv_pos.mpr hpos
  have hmul := mul_lt_mul_of_pos_right h hinvpos
  rw [hinv] at hmul
  linarith

theorem exp_high_pow :
    Real.exp (0.01 * Real.log 631) ^ (100 : ℕ) = 631 := by
  rw [← Real.exp_nat_mul]
  rw [show ((100 : ℕ) : ℝ) * (0.01 * Real.log 631) = Real.log 631 by push_cast; ring_nf]
  exact Real.exp_log (by norm_num)

theorem exp_high_lb : (671 : ℝ) / 630 < Real.exp (0.01 * Real.log 631) := by
  have hpos : (0 : ℝ) < Real.exp (0.01 * Real.log 631) := Real.exp_pos _
  apply (pow_lt_pow_iff_left₀ (by norm_num : (0 : ℝ) ≤ 671 / 630)
    (le_of_lt hpos) (by norm_num : (100 : ℕ) ≠ 0)).mp
  rw [exp_high_pow]
  norm_num

theorem exp_high_ub : Real.exp (0.01 * Real.log 631) ≤ (672 : ℝ) / 630 := by
  have hpos : (0 : ℝ) < Real.exp (0.01 * Real.log 631) := Real.exp_pos _
  apply (pow_le_pow_iff_left₀ (le_of_lt hpos)
    (by norm_num : (0 : ℝ) ≤ 672 / 630) (by norm_num : (100 : ℕ) ≠ 0)).mp
  rw [exp_high_pow]
  norm_num

/-- Full evaluation of the pricing core at raw prediction 1 000 000:
dampened to 630 000, rounded to 630 000, band `[599000, 672000]`. -/
theorem nucleo_millon : predecir_nucleo 1000000 = (630000, 599000, 672000) := by
  have hpr : (⌊(1000000 : ℝ) * 0.63 / 1000⌋ * 1000 : ℤ) = 630000 := by
    rw [floor_millon]
    norm_num
  have h1 : predecir_nucleo 1000000 =
      (630000, (rango_precio 630000).1, (rango_precio 630000).2) := by
    show ((⌊(1000000 : ℝ) * 0.63 / 1000⌋ * 1000 : ℤ),
        (rango_precio (⌊(1000000 : ℝ) * 0.63 / 1000⌋ * 1000)).1,
        (rango_precio (⌊(1000000 : ℝ) * 0.63 / 1000⌋ * 1000)).2) =
      (630000, (rango_precio 630000).1, (rango_precio 630000).2)
    rw [hpr]
  have harg : (((630000 : ℤ) : ℝ)) / 1000 + 1 = 631 := by
    push_cast
    norm_num
  have hmin : ⌊((630000 : ℤ) : ℝ) * Real.exp (-0.05) / 1000⌋ = 599 := by
    apply Int.floor_eq_iff.mpr
    constructor
    · have := exp_low_lb
      push_cast
      nlinarith
    · have := exp_low_ub
      push_cast
      nlinarith
  have hmax : ⌈((630000 : ℤ) : ℝ) *
      Real.exp (0.01 * Real.log (((630000 : ℤ) : ℝ) / 1000 + 1)) / 1000⌉ = 672 := by
    rw [harg]
    apply Int.ceil_eq_iff.mpr
    constructor
    · have := exp_high_lb
      push_cast
      nlinarith
    · have := exp_high_ub
      push_cast
      nlinarith
  have h2 : (rango_precio 630000).1 = 599000 := by
    show max 0 (⌊((630000 : ℤ) : ℝ) * Real.exp (-0.05) / 1000⌋ * 1000) = 599000
    rw [hmin]
    norm_num
  have h3 : (rango_precio 630000).2 = 672000 := by
    show ⌈((630000 : ℤ) : ℝ) *
        Real.exp (0.01 * Real.log (((630000 : ℤ) : ℝ) / 1000 + 1)) / 1000⌉ * 1000 = 672000
    rw [hmax]
    norm_num
  rw [h1, h2, h3]

/-- C2 counterexample: in the 1 000 000 scenario the code's band is
`[599000, 672000]`, so the claimed triple with `rangeMax = 671000` is not
what `predecir_precio` returns; the true high factor is
`exp(0.01 * ln 631) ≈ 1.0666`, not the claimed `≈ 1.0645`. -/
theorem c2_counterexample :
    predecir_precio [200, 150, 3, 2.5, 0]
        (cargar_modelos presenciaCompleta (fnsConst 1000000)) ≠
      some (630000, 599000, 671000) := by
  have h : predecir_precio [200, 150, 3, 2.5, 0]
      (cargar_modelos presenciaCompleta (fnsConst 1000000)) =
      (if (⌊(1000000 : ℝ) * 0.63 / 1000⌋ * 1000 : ℤ) ≤ -1000 then none
        else some (predecir_nucleo 1000000) : Option (ℤ × ℤ × ℤ)) := rfl
  rw [h, floor_millon, if_neg (by norm_num : ¬((630 * 1000 : ℤ) ≤ -1000)), nucleo_millon]
  intro hcon
  simp only [Option.some.injEq, Prod.mk.injEq] at hcon
  exact absurd hcon.2.2 (by norm_num)

/-- C2 amended: in the 1 000 000 scenario with the 0.63 dampening, the code
returns exactly `roundedPrice = 630000`, `rangeMin = 599000` and
`rangeMax = 672000` (the spec arithmetic's `ceil(630000 · exp(0.01·ln 631)
/ 1000) · 1000` equals 672000, not 671000). -/
theorem c2_amended :
    predecir_precio [200, 150, 3, 2.5, 0]
        (cargar_modelos presenciaCompleta (fnsConst 1000000)) =
      some (630000, 599000, 672000) := by
  have h : predecir_precio [200, 150, 3, 2.5, 0]
      (cargar_modelos presenciaCompleta (fnsConst 1000000)) =
      (if (⌊(1000000 : ℝ) * 0.63 / 1000⌋ * 1000 : ℤ) ≤ -1000 then none
        else some (predecir_nucleo 1000000) : Option (ℤ × ℤ × ℤ)) := rfl
  rw [h, floor_millon, if_neg (by norm_num : ¬((630 * 1000 : ℤ) ≤ -1000)), nucleo_millon]

/- ### Wizard step-1 guard (`Siguiente` button) -/

/-- Outcome of pressing `Siguiente` in step 1. -/
inductive ResultadoPaso1 where
  | avanzar
  | errorDireccion
  | errorCampos
deriving DecidableEq

/-- Step-1 `Siguiente` guard: an unselected (empty) address is reported
first with its own error; otherwise any zero field keeps the user in step 1
with the field-completion error; otherwise the wizard advances to step 2. -/
def paso1_siguiente (direccion_seleccionada : String)
    (terreno construccion habitaciones : ℤ) (banos : ℚ) : ResultadoPaso1 :=
  if direccion_seleccionada = "" then .errorDireccion
  else if terreno = 0 ∨ construccion = 0 ∨ habitaciones = 0 ∨ banos = 0 then .errorCampos
  else .avanzar

/-- Value of `st.session_state.step` after the click: 2 on advance,
otherwise unchanged at 1. -/
def paso_siguiente_estado (r : ResultadoPaso1) : ℕ :=
  match r with
  | .avanzar => 2
  | _ => 1

/- ### C7: the guard with `landAreaM2 = 0` -/

/-- C7 counterexample: with no address selected and `terreno = 0`, the
reported error is the address-selection error, not the field-completion
error, so the claim's error message is not reported for every such state. -/
theorem c7_counterexample :
    paso1_siguiente "" 0 1 1 1 ≠ ResultadoPaso1.errorCampos := by decide

/-- C7 amended: with `landAreaM2 = 0` the Step1→Step2 transition is refused
regardless of every other field and the step stays at 1; the
field-completion error is the one reported whenever an address is selected,
while an empty address reports the address-selection error instead. -/
theorem c7_amended (direccion : String) (construccion habitaciones : ℤ) (banos : ℚ) :
    paso1_siguiente direccion 0 construccion habitaciones banos ≠ ResultadoPaso1.avanzar ∧
    paso_siguiente_estado (paso1_siguiente direccion 0 construccion habitaciones banos) = 1 ∧
    (direccion ≠ "" →
      paso1_siguiente direccion 0 construccion habitaciones banos = ResultadoPaso1.errorCampos) := by
  have hcond : ((0 : ℤ) = 0 ∨ construccion = 0 ∨ habitaciones = 0 ∨ banos = 0) := Or.inl rfl
  by_cases hd : direccion = ""
  · unfold paso1_siguiente
    rw [if_pos hd]
    exact ⟨by decide, rfl, fun h => absurd hd h⟩
  · unfold paso1_siguiente
    rw [if_neg hd, if_pos hcond]
    exact ⟨by decide, rfl, fun _ => rfl⟩

/-- Witness for C7 at a concrete selected address and nonzero other fields. -/
theorem c7_witness :
    paso1_siguiente "Calle 1" 0 5 5 (5 / 2) ≠ ResultadoPaso1.avanzar ∧
    paso_siguiente_estado (paso1_siguiente "Calle 1" 0 5 5 (5 / 2)) = 1 ∧
    paso1_siguiente "Calle 1" 0 5 5 (5 / 2) = ResultadoPaso1.errorCampos :=
  ⟨(c7_amended "Calle 1" 5 5 (5 / 2)).1, (c7_amended "Calle 1" 5 5 (5 / 2)).2.1,
    (c7_amended "Calle 1" 5 5 (5 / 2)).2.2 (by decide)⟩

end Valualo
